import Mathlib

/-!
Verification development for an options open-interest (OI) anomaly monitor.

The program loads yesterday's OI snapshot from a CSV baseline file, fetches
today's option chains per ticker and expiration (with bounded retry), joins
today's rows against the baseline by the composite key
(ticker, expiration, strike, type), computes absolute and percentage changes,
classifies rows as anomalous under two OR'd threshold rules, posts one
aggregated alert when anomalies exist, and always persists today's snapshot
as the next baseline.

This file gives a shallow embedding of that logic: machine floats are modelled
by exact rationals, the percentage "infinity" sentinel by an explicit
constructor, the file system and HTTP transport by explicit input values, and
the row loop by a fold over an explicit run state.
-/

set_option autoImplicit false

namespace OIMonitor

/-- Thresholds to consider an OI change unusual: percentage points. -/
def PERCENT_CHANGE_THRESHOLD : ℚ := 100

/-- Thresholds to consider an OI change unusual: absolute contract count. -/
def ABS_CHANGE_THRESHOLD : ℤ := 2000

/-- Maximum number of retries for fetching option chain data. -/
def MAX_FETCH_RETRIES : ℕ := 3

/-- Delay between fetch attempts, in seconds. -/
def RETRY_DELAY_SECONDS : ℕ := 2

/-- One row of a persisted snapshot: the record appended per option row,
mirroring the dict pushed onto `current_oi_records`. -/
structure OIRecord where
  date : String
  ticker : String
  expiration : String
  strike : ℚ
  type : String
  openInterest : ℤ
deriving DecidableEq, Repr

/-- One freshly fetched option row, flattened over the ticker/expiration
loops: the data the per-row reconciliation body reads. -/
structure TodayRow where
  ticker : String
  expiration : String
  strike : ℚ
  type : String
  openInterest : ℤ
deriving DecidableEq, Repr

/-- A percentage change: either the infinite sentinel produced for a jump
from a zero baseline to a positive value, or a finite rational. -/
inductive Pct where
  | infinite : Pct
  | finite : ℚ → Pct
deriving DecidableEq, Repr

/-- Comparison of a percentage change against a threshold, mirroring float
comparison where the infinite sentinel exceeds every finite threshold. -/
def Pct.geQ : Pct → ℚ → Bool
  | Pct.infinite, _ => true
  | Pct.finite q, t => decide (t ≤ q)

/-- The columns of the snapshot schema, as written by the loader when no
baseline file exists and by the record-to-frame conversion. -/
def CANONICAL_COLUMNS : List String :=
  ["date", "ticker", "expiration", "strike", "type", "openInterest"]

/-- An in-memory tabular snapshot: column names plus rows. -/
structure DataFrame where
  columns : List String
  rows : List OIRecord
deriving DecidableEq, Repr

/-- One persisted CSV cell, at the granularity the CSV layer round-trips:
a string field or a numeric field. -/
inductive Cell where
  | str : String → Cell
  | int : ℤ → Cell
  | rat : ℚ → Cell
deriving DecidableEq, Repr

/-- A persisted CSV file: the header line and the data rows. -/
structure CsvFile where
  header : List String
  dataRows : List (List Cell)
deriving DecidableEq, Repr

/-- Serialize one snapshot row in canonical column order. -/
def encodeRecord (r : OIRecord) : List Cell :=
  [Cell.str r.date, Cell.str r.ticker, Cell.str r.expiration,
   Cell.rat r.strike, Cell.str r.type, Cell.int r.openInterest]

/-- Parse one CSV data row back into a snapshot row; fails on wrong arity
or wrongly typed fields. -/
def decodeRecord : List Cell → Option OIRecord
  | [Cell.str d, Cell.str t, Cell.str e, Cell.rat s, Cell.str ty, Cell.int oi] =>
      some ⟨d, t, e, s, ty, oi⟩
  | _ => none

/-- Parse all CSV data rows; fails if any row fails. -/
def decodeRows : List (List Cell) → Option (List OIRecord)
  | [] => some []
  | c :: cs =>
      match decodeRecord c, decodeRows cs with
      | some r, some rs => some (r :: rs)
      | _, _ => none

/-- `save_current_oi`: persist today's snapshot as CSV (header plus rows). -/
def save_current_oi (df : DataFrame) : CsvFile :=
  ⟨df.columns, df.rows.map encodeRecord⟩

/-- `load_previous_oi`: load the persisted baseline, or an empty frame with
the canonical schema when no file exists; `none` on an unparseable file. -/
def load_previous_oi : Option CsvFile → Option DataFrame
  | none => some ⟨CANONICAL_COLUMNS, []⟩
  | some f => Option.map (fun rs => DataFrame.mk f.header rs) (decodeRows f.dataRows)

/-- The row mask used for the baseline lookup: all four key fields equal. -/
def keyMatches (row : OIRecord) (ticker expiration : String) (strike : ℚ)
    (optType : String) : Bool :=
  decide (row.ticker = ticker) && decide (row.expiration = expiration) &&
    decide (row.strike = strike) && decide (row.type = optType)

/-- Yesterday's OI for a key: filter the prior rows by the mask and take the
first match's openInterest, defaulting to 0 when nothing matches. -/
def lookupPrevOI (prevRows : List OIRecord) (ticker expiration : String)
    (strike : ℚ) (optType : String) : ℤ :=
  match prevRows.filter (fun row => keyMatches row ticker expiration strike optType) with
  | [] => 0
  | row :: _ => row.openInterest

/-- The percentage change: infinite sentinel on a jump from a zero baseline
to a positive value, 0 on a zero baseline otherwise, else the exact ratio
scaled to percentage points. -/
def pctChangeOf (oiYesterday oiToday : ℤ) : Pct :=
  if oiYesterday = 0 then
    if 0 < oiToday then Pct.infinite else Pct.finite 0
  else
    Pct.finite ((((oiToday - oiYesterday : ℤ) : ℚ) / (oiYesterday : ℚ)) * 100)

/-- Absolute threshold rule: the signed change is at least the threshold. -/
def meetsAbsThreshold (absT : ℤ) (oiYesterday oiToday : ℤ) : Bool :=
  decide (absT ≤ oiToday - oiYesterday)

/-- Percentage threshold rule: guarded by a non-zero baseline, then the
percentage change is at least the threshold. -/
def meetsPctThreshold (pctT : ℚ) (oiYesterday oiToday : ℤ) : Bool :=
  decide (oiYesterday ≠ 0) && (pctChangeOf oiYesterday oiToday).geQ pctT

/-- The data carried by one alert line: key, date, both OI values, the
signed change, and the displayed percentage. -/
structure AnomalyEntry where
  ticker : String
  date : String
  expiration : String
  optType : String
  strike : ℚ
  oi_yesterday : ℤ
  oi_today : ℤ
  abs_change : ℤ
  pct_change : Pct
deriving DecidableEq, Repr

/-- The reconciliation body for one today-row: build the snapshot record,
look up the baseline, compute changes, and emit an anomaly entry when either
threshold rule fires. -/
def reconcileRow (absT : ℤ) (pctT : ℚ) (current_date : String)
    (prevRows : List OIRecord) (r : TodayRow) : OIRecord × Option AnomalyEntry :=
  let oi_yesterday := lookupPrevOI prevRows r.ticker r.expiration r.strike r.type
  let oi_today := r.openInterest
  let record : OIRecord := ⟨current_date, r.ticker, r.expiration, r.strike, r.type, oi_today⟩
  let abs_change := oi_today - oi_yesterday
  let pct_change := pctChangeOf oi_yesterday oi_today
  if meetsAbsThreshold absT oi_yesterday oi_today || meetsPctThreshold pctT oi_yesterday oi_today then
    (record, some ⟨r.ticker, current_date, r.expiration, r.type, r.strike,
                   oi_yesterday, oi_today, abs_change, pct_change⟩)
  else
    (record, none)

/-- The mutable locals of the main loop: the loaded baseline and the two
accumulators. -/
structure RunState where
  prev_oi_df : DataFrame
  current_oi_records : List OIRecord
  alert_lines : List AnomalyEntry
deriving DecidableEq, Repr

/-- One iteration of the per-row loop: append today's record and any alert. -/
def stepRow (absT : ℤ) (pctT : ℚ) (current_date : String) (s : RunState)
    (r : TodayRow) : RunState :=
  let res := reconcileRow absT pctT current_date s.prev_oi_df.rows r
  ⟨s.prev_oi_df, s.current_oi_records ++ [res.1], s.alert_lines ++ res.2.toList⟩

/-- The reconciliation engine: fold the per-row body over today's rows,
starting from the loaded baseline and empty accumulators. -/
def runReconcile (absT : ℤ) (pctT : ℚ) (current_date : String)
    (prior : DataFrame) (today : List TodayRow) : RunState :=
  today.foldl (stepRow absT pctT current_date) ⟨prior, [], []⟩

/-- What a run of the retry wrapper observably did: how many fetch attempts
were made, the duration of each inter-attempt sleep in order, and the
returned batch if any. -/
structure RetryTrace (α : Type) where
  attempts : ℕ
  sleeps : List ℕ
  result : Option α
deriving DecidableEq, Repr

/-- The retry loop body, recursing on the number of remaining loop
iterations; `attempt` is the 1-based index of the current attempt, and a
sleep of `delay` seconds happens after a failed attempt with
`attempt < max_retries`. -/
def retryFrom {α : Type} (fetch : ℕ → Option α) (max_retries delay : ℕ) :
    ℕ → ℕ → RetryTrace α
  | 0, _ => ⟨0, [], none⟩
  | fuel + 1, attempt =>
      match fetch attempt with
      | some batch => ⟨1, [], some batch⟩
      | none =>
          let rest := retryFrom fetch max_retries delay fuel (attempt + 1)
          ⟨rest.attempts + 1,
           (if attempt < max_retries then [delay] else []) ++ rest.sleeps,
           rest.result⟩

/-- `fetch_option_chain_with_retry`: attempt the fetch for attempts
1..max_retries, returning the first successful batch immediately, sleeping
`delay` seconds between attempts, and returning none after exhaustion.
The external fetch is modelled by its outcome per attempt index. -/
def fetch_option_chain_with_retry {α : Type} (fetch : ℕ → Option α)
    (max_retries delay : ℕ) : RetryTrace α :=
  retryFrom fetch max_retries delay max_retries 1

/-- The outcome of the single HTTP post to the webhook: a response with a
status code, or one of the two caught transport exceptions. -/
inductive PostOutcome where
  | response : ℕ → PostOutcome
  | timeout : PostOutcome
  | connectionError : PostOutcome
deriving DecidableEq, Repr

/-- What the notifier observably did: how many HTTP posts it made and
whether it logged success. -/
structure NotifyResult where
  posts : ℕ
  success : Bool
deriving DecidableEq, Repr

/-- `send_discord_alert`: one post; status 200 or 204 is success, any other
status is logged as a failure, and timeouts and connection errors are
caught. No outcome raises past this function and none is retried. -/
def send_discord_alert (outcome : PostOutcome) : NotifyResult :=
  match outcome with
  | PostOutcome.response status => ⟨1, status == 200 || status == 204⟩
  | PostOutcome.timeout => ⟨1, false⟩
  | PostOutcome.connectionError => ⟨1, false⟩

/-- What the tail of `main` observably did: number of notifier invocations,
number of HTTP posts, and the persisted CSV file. -/
structure RunOutcome where
  notifier_calls : ℕ
  post_attempts : ℕ
  saved : CsvFile
deriving DecidableEq, Repr

/-- The tail of `main` after the loop: when the alert list is non-empty,
send one aggregated Discord message; in every case persist today's
snapshot as the new baseline. -/
def mainFinalize (alert_lines : List AnomalyEntry) (outcome : PostOutcome)
    (current_oi_df : DataFrame) : RunOutcome :=
  if alert_lines.isEmpty then
    ⟨0, 0, save_current_oi current_oi_df⟩
  else
    ⟨1, (send_discord_alert outcome).posts, save_current_oi current_oi_df⟩

/-! ## Helper lemmas -/

theorem decodeRecord_encodeRecord (r : OIRecord) :
    decodeRecord (encodeRecord r) = some r := rfl

theorem decodeRows_map_encodeRecord (rows : List OIRecord) :
    decodeRows (rows.map encodeRecord) = some rows := by
  induction rows with
  | nil => rfl
  | cons r rs ih => simp [decodeRows, decodeRecord_encodeRecord, ih]

theorem lookupPrevOI_of_no_match (prevRows : List OIRecord) (t e ty : String) (s : ℚ)
    (h : ∀ x ∈ prevRows, keyMatches x t e s ty = false) :
    lookupPrevOI prevRows t e s ty = 0 := by
  unfold lookupPrevOI
  have hnil : prevRows.filter (fun row => keyMatches row t e s ty) = [] := by
    simp [List.filter_eq_nil_iff]
    intro a ha
    simp [h a ha]
  rw [hnil]

theorem lookupPrevOI_of_first_match (l1 l2 : List OIRecord) (pr : OIRecord)
    (t e ty : String) (s : ℚ)
    (h1 : ∀ x ∈ l1, keyMatches x t e s ty = false)
    (h2 : keyMatches pr t e s ty = true) :
    lookupPrevOI (l1 ++ pr :: l2) t e s ty = pr.openInterest := by
  unfold lookupPrevOI
  have hnil : l1.filter (fun row => keyMatches row t e s ty) = [] := by
    simp [List.filter_eq_nil_iff]
    intro a ha
    simp [h1 a ha]
  rw [List.filter_append, hnil, List.nil_append]
  simp [List.filter_cons, h2]

theorem lookupPrevOI_nonneg (prevRows : List OIRecord) (t e ty : String) (s : ℚ)
    (h : ∀ x ∈ prevRows, 0 ≤ x.openInterest) :
    0 ≤ lookupPrevOI prevRows t e s ty := by
  unfold lookupPrevOI
  cases hf : prevRows.filter (fun row => keyMatches row t e s ty) with
  | nil => simp
  | cons x xs =>
      have hmem : x ∈ prevRows.filter (fun row => keyMatches row t e s ty) := by
        rw [hf]; exact List.mem_cons_self x xs
      exact h x (List.mem_of_mem_filter hmem)

theorem reconcileRow_fst (absT : ℤ) (pctT : ℚ) (d : String)
    (prevRows : List OIRecord) (r : TodayRow) :
    (reconcileRow absT pctT d prevRows r).1 =
      ⟨d, r.ticker, r.expiration, r.strike, r.type, r.openInterest⟩ := by
  unfold reconcileRow
  by_cases h : (meetsAbsThreshold absT
      (lookupPrevOI prevRows r.ticker r.expiration r.strike r.type) r.openInterest ||
    meetsPctThreshold pctT
      (lookupPrevOI prevRows r.ticker r.expiration r.strike r.type) r.openInterest) = true
  · simp [h]
  · simp [h]

theorem reconcileRow_snd (absT : ℤ) (pctT : ℚ) (d : String)
    (prevRows : List OIRecord) (r : TodayRow) :
    (reconcileRow absT pctT d prevRows r).2 =
      (if meetsAbsThreshold absT
            (lookupPrevOI prevRows r.ticker r.expiration r.strike r.type) r.openInterest ||
          meetsPctThreshold pctT
            (lookupPrevOI prevRows r.ticker r.expiration r.strike r.type) r.openInterest then
        some ⟨r.ticker, d, r.expiration, r.type, r.strike,
              lookupPrevOI prevRows r.ticker r.expiration r.strike r.type, r.openInterest,
              r.openInterest - lookupPrevOI prevRows r.ticker r.expiration r.strike r.type,
              pctChangeOf (lookupPrevOI prevRows r.ticker r.expiration r.strike r.type)
                r.openInterest⟩
      else none) := by
  unfold reconcileRow
  by_cases h : (meetsAbsThreshold absT
      (lookupPrevOI prevRows r.ticker r.expiration r.strike r.type) r.openInterest ||
    meetsPctThreshold pctT
      (lookupPrevOI prevRows r.ticker r.expiration r.strike r.type) r.openInterest) = true
  · simp [h]
  · simp [h]

theorem foldl_stepRow (absT : ℤ) (pctT : ℚ) (d : String) (today : List TodayRow) :
    ∀ s : RunState, today.foldl (stepRow absT pctT d) s =
      ⟨s.prev_oi_df,
       s.current_oi_records ++
         today.map (fun r => (reconcileRow absT pctT d s.prev_oi_df.rows r).1),
       s.alert_lines ++
         today.filterMap (fun r => (reconcileRow absT pctT d s.prev_oi_df.rows r).2)⟩ := by
  induction today with
  | nil => intro s; simp
  | cons r rest ih =>
      intro s
      rw [List.foldl_cons, ih]
      simp only [stepRow]
      cases h : (reconcileRow absT pctT d s.prev_oi_df.rows r).2 with
      | none => simp [h, List.filterMap_cons]
      | some e => simp [h, List.filterMap_cons]

theorem runReconcile_records (absT : ℤ) (pctT : ℚ) (d : String)
    (prior : DataFrame) (today : List TodayRow) :
    (runReconcile absT pctT d prior today).current_oi_records =
      today.map (fun r => (reconcileRow absT pctT d prior.rows r).1) := by
  unfold runReconcile
  rw [foldl_stepRow]
  simp

theorem runReconcile_alerts (absT : ℤ) (pctT : ℚ) (d : String)
    (prior : DataFrame) (today : List TodayRow) :
    (runReconcile absT pctT d prior today).alert_lines =
      today.filterMap (fun r => (reconcileRow absT pctT d prior.rows r).2) := by
  unfold runReconcile
  rw [foldl_stepRow]
  simp

theorem lookupPrevOI_nil (t e ty : String) (s : ℚ) :
    lookupPrevOI [] t e s ty = 0 := rfl

theorem retryFrom_all_fail {α : Type} (fetch : ℕ → Option α) (N delay : ℕ) :
    ∀ fuel attempt : ℕ, attempt + fuel = N + 1 →
    (∀ j, attempt ≤ j → j ≤ N → fetch j = none) →
    retryFrom fetch N delay fuel attempt =
      ⟨fuel, List.replicate (fuel - 1) delay, none⟩ := by
  intro fuel
  induction fuel with
  | zero => intro attempt _ _; rfl
  | succ f ih =>
      intro attempt hsum hfail
      have hatt : fetch attempt = none := hfail attempt le_rfl (by omega)
      have hrest := ih (attempt + 1) (by omega)
        (fun j h1 h2 => hfail j (by omega) h2)
      simp only [retryFrom, hatt, hrest]
      cases f with
      | zero =>
          have : ¬ attempt < N := by omega
          simp [this]
      | succ g =>
          have : attempt < N := by omega
          simp [this, List.replicate_succ]

theorem retryFrom_first_success {α : Type} (fetch : ℕ → Option α) (N delay : ℕ) :
    ∀ (fuel attempt k : ℕ) (b : α), attempt + fuel = N + 1 → attempt ≤ k → k ≤ N →
    (∀ j, attempt ≤ j → j < k → fetch j = none) → fetch k = some b →
    retryFrom fetch N delay fuel attempt =
      ⟨k - attempt + 1, List.replicate (k - attempt) delay, some b⟩ := by
  intro fuel
  induction fuel with
  | zero => intro attempt k b hsum h1 h2 _ _; omega
  | succ f ih =>
      intro attempt k b hsum h1 h2 hfail hk
      by_cases hak : attempt = k
      · subst hak
        simp [retryFrom, hk]
      · have hlt : attempt < k := by omega
        have hatt : fetch attempt = none := hfail attempt le_rfl hlt
        have hrest := ih (attempt + 1) k b (by omega) (by omega) h2
          (fun j ha hb => hfail j (by omega) hb) hk
        simp only [retryFrom, hatt, hrest]
        have haN : attempt < N := by omega
        have hrep : delay :: List.replicate (k - (attempt + 1)) delay =
            List.replicate (k - attempt) delay := by
          have : k - attempt = (k - (attempt + 1)) + 1 := by omega
          rw [this, List.replicate_succ]
        simp [haN]
        constructor
        · omega
        · rw [← hrep]

/-- On a zero baseline with positive thresholds, either threshold rule firing
forces strict OI growth. -/
theorem anomalyCond_implies_growth (absT : ℤ) (pctT : ℚ) (Y T : ℤ)
    (ha : 0 < absT) (hp : 0 < pctT) (hY : 0 ≤ Y)
    (hcond : (meetsAbsThreshold absT Y T || meetsPctThreshold pctT Y T) = true) :
    Y < T := by
  rw [Bool.or_eq_true] at hcond
  rcases hcond with habs | hpct
  · have : absT ≤ T - Y := of_decide_eq_true habs
    omega
  · have h1 : Y ≠ 0 ∧ (pctChangeOf Y T).geQ pctT = true := by
      simpa [meetsPctThreshold] using hpct
    have hYpos : 0 < Y := lt_of_le_of_ne hY (Ne.symm h1.1)
    have hfin : pctChangeOf Y T = Pct.finite (((T - Y : ℤ) : ℚ) / (Y : ℚ) * 100) := by
      simp [pctChangeOf, h1.1]
    have hle : pctT ≤ ((T - Y : ℤ) : ℚ) / (Y : ℚ) * 100 := by
      have := h1.2
      rw [hfin] at this
      simpa [Pct.geQ] using this
    have hvpos : 0 < ((T - Y : ℤ) : ℚ) / (Y : ℚ) * 100 := lt_of_lt_of_le hp hle
    have hden : (0 : ℚ) < (Y : ℚ) := by exact_mod_cast hYpos
    have hz : 0 < ((T - Y : ℤ) : ℚ) / (Y : ℚ) := by linarith
    rcases div_pos_iff.mp hz with ⟨hnum, _⟩ | ⟨_, hdneg⟩
    · have : (0 : ℤ) < T - Y := by exact_mod_cast hnum
      omega
    · linarith

/-! ## Claim theorems -/

/-- C1: for a today-row whose baseline OI is 0, the percentage change is 0
when today's OI is 0 and the infinite sentinel when it is positive; the
percentage rule never fires on this branch, and an anomaly is emitted iff
today's OI is at least the absolute threshold. -/
theorem zero_baseline_classification (absT : ℤ) (pctT : ℚ) (d : String)
    (prevRows : List OIRecord) (r : TodayRow)
    (h : lookupPrevOI prevRows r.ticker r.expiration r.strike r.type = 0) :
    (r.openInterest = 0 → pctChangeOf 0 r.openInterest = Pct.finite 0) ∧
    (0 < r.openInterest → pctChangeOf 0 r.openInterest = Pct.infinite) ∧
    meetsPctThreshold pctT 0 r.openInterest = false ∧
    ((reconcileRow absT pctT d prevRows r).2.isSome = true ↔ absT ≤ r.openInterest) := by
  refine ⟨?_, ?_, ?_, ?_⟩
  · intro h0; simp [pctChangeOf, h0]
  · intro h0; simp [pctChangeOf, h0]
  · simp [meetsPctThreshold]
  · rw [reconcileRow_snd, h]
    by_cases hA : absT ≤ r.openInterest
    · simp [meetsAbsThreshold, meetsPctThreshold, hA]
    · simp [meetsAbsThreshold, meetsPctThreshold, hA]

theorem zero_baseline_classification_witness :
    lookupPrevOI [] "SPY" "2025-03-21" 400 "CALL" = 0 ∧
    ((reconcileRow 2000 100 "2025-01-02" []
        ⟨"SPY", "2025-03-21", 400, "CALL", 2500⟩).2.isSome = true ↔ (2000 : ℤ) ≤ 2500) :=
  ⟨rfl,
   (zero_baseline_classification 2000 100 "2025-01-02" []
     ⟨"SPY", "2025-03-21", 400, "CALL", 2500⟩ rfl).2.2.2⟩

/-- C2: for a today-row whose baseline OI `Y` is positive, the percentage
change is exactly `(oi_today - Y) / Y * 100`, and an anomaly is emitted iff
the absolute change meets the absolute threshold or the percentage change
meets the percentage threshold. -/
theorem positive_baseline_classification (absT : ℤ) (pctT : ℚ) (d : String)
    (prevRows : List OIRecord) (r : TodayRow) (Y : ℤ)
    (hY : lookupPrevOI prevRows r.ticker r.expiration r.strike r.type = Y)
    (hpos : 0 < Y) :
    pctChangeOf Y r.openInterest =
      Pct.finite (((r.openInterest - Y : ℤ) : ℚ) / (Y : ℚ) * 100) ∧
    ((reconcileRow absT pctT d prevRows r).2.isSome = true ↔
      (absT ≤ r.openInterest - Y ∨
        pctT ≤ ((r.openInterest - Y : ℤ) : ℚ) / (Y : ℚ) * 100)) := by
  have hne : Y ≠ 0 := by omega
  constructor
  · simp [pctChangeOf, hne]
  · rw [reconcileRow_snd, hY]
    by_cases hA : absT ≤ r.openInterest - Y
    · simp [meetsAbsThreshold, hA]
    · by_cases hP : pctT ≤ ((r.openInterest - Y : ℤ) : ℚ) / (Y : ℚ) * 100
      · simp [meetsAbsThreshold, meetsPctThreshold, pctChangeOf, Pct.geQ, hne, hA, hP]
      · simp [meetsAbsThreshold, meetsPctThreshold, pctChangeOf, Pct.geQ, hne, hA, hP]

theorem positive_baseline_classification_witness :
    lookupPrevOI [⟨"2025-01-01", "AAPL", "2025-01-17", 150, "CALL", 1000⟩]
        "AAPL" "2025-01-17" 150 "CALL" = 1000 ∧
    (0 : ℤ) < 1000 ∧
    ((reconcileRow 2000 100 "2025-01-02"
        [⟨"2025-01-01", "AAPL", "2025-01-17", 150, "CALL", 1000⟩]
        ⟨"AAPL", "2025-01-17", 150, "CALL", 3200⟩).2.isSome = true ↔
      ((2000 : ℤ) ≤ 3200 - 1000 ∨
        (100 : ℚ) ≤ ((3200 - 1000 : ℤ) : ℚ) / ((1000 : ℤ) : ℚ) * 100)) :=
  ⟨by decide, by decide,
   (positive_baseline_classification 2000 100 "2025-01-02"
     [⟨"2025-01-01", "AAPL", "2025-01-17", 150, "CALL", 1000⟩]
     ⟨"AAPL", "2025-01-17", 150, "CALL", 3200⟩ 1000 (by decide) (by decide)).2⟩

/-- C5: the baseline value for a composite key is the openInterest of the
first prior row whose four key fields match (first match wins over
duplicates), and 0 when no prior row matches. -/
theorem baseline_lookup_first_match (prior : List OIRecord) (t e : String) (s : ℚ)
    (ty : String) :
    ((∀ x ∈ prior, keyMatches x t e s ty = false) → lookupPrevOI prior t e s ty = 0) ∧
    (∀ l1 pr l2, prior = l1 ++ pr :: l2 →
      (∀ x ∈ l1, keyMatches x t e s ty = false) → keyMatches pr t e s ty = true →
      lookupPrevOI prior t e s ty = pr.openInterest) := by
  constructor
  · exact lookupPrevOI_of_no_match prior t e ty s
  · intro l1 pr l2 hsplit h1 h2
    rw [hsplit]
    exact lookupPrevOI_of_first_match l1 l2 pr t e ty s h1 h2

theorem baseline_lookup_first_match_witness :
    keyMatches ⟨"2025-01-01", "AAPL", "2025-01-17", 150, "CALL", 500⟩
        "AAPL" "2025-01-17" 150 "CALL" = true ∧
    lookupPrevOI
        [⟨"2025-01-01", "MSFT", "2025-01-17", 150, "CALL", 111⟩,
         ⟨"2025-01-01", "AAPL", "2025-01-17", 150, "CALL", 500⟩,
         ⟨"2025-01-01", "AAPL", "2025-01-17", 150, "CALL", 900⟩]
        "AAPL" "2025-01-17" 150 "CALL" = 500 :=
  ⟨by decide,
   (baseline_lookup_first_match
       [⟨"2025-01-01", "MSFT", "2025-01-17", 150, "CALL", 111⟩,
        ⟨"2025-01-01", "AAPL", "2025-01-17", 150, "CALL", 500⟩,
        ⟨"2025-01-01", "AAPL", "2025-01-17", 150, "CALL", 900⟩]
       "AAPL" "2025-01-17" 150 "CALL").2
     [⟨"2025-01-01", "MSFT", "2025-01-17", 150, "CALL", 111⟩]
     ⟨"2025-01-01", "AAPL", "2025-01-17", 150, "CALL", 500⟩
     [⟨"2025-01-01", "AAPL", "2025-01-17", 150, "CALL", 900⟩]
     rfl (by decide) (by decide)⟩

/-- C9: the prior snapshot component of the run state is untouched by the
whole reconciliation fold: at the end of the run it equals the snapshot as
loaded, for every today-data input. -/
theorem prior_snapshot_unchanged (absT : ℤ) (pctT : ℚ) (d : String)
    (prior : DataFrame) (today : List TodayRow) :
    (runReconcile absT pctT d prior today).prev_oi_df = prior := by
  unfold runReconcile
  rw [foldl_stepRow]

/-- C3 counterexample: on a first run the loaded baseline is empty, yet a
today-row with openInterest 2000 triggers the absolute threshold rule, so
the anomaly list is not empty for every today-data input. -/
theorem first_run_counterexample :
    load_previous_oi none = some ⟨CANONICAL_COLUMNS, []⟩ ∧
    (runReconcile ABS_CHANGE_THRESHOLD PERCENT_CHANGE_THRESHOLD "2025-01-02"
        ⟨CANONICAL_COLUMNS, []⟩
        [⟨"SPY", "2025-03-21", 400, "CALL", 2000⟩]).alert_lines ≠ [] := by
  constructor
  · rfl
  · decide

/-- C3 (amended): on a first run the loader returns an empty snapshot with
exactly the canonical columns; with this empty baseline every comparison
defaults oi_yesterday to 0, so the percentage rule never fires and the run's
anomaly list is empty iff every today-row's openInterest is below the
absolute threshold. -/
theorem first_run_classification (absT : ℤ) (pctT : ℚ) (d : String)
    (today : List TodayRow) :
    load_previous_oi none = some ⟨CANONICAL_COLUMNS, []⟩ ∧
    ((runReconcile absT pctT d ⟨CANONICAL_COLUMNS, []⟩ today).alert_lines = [] ↔
      ∀ r ∈ today, r.openInterest < absT) := by
  refine ⟨rfl, ?_⟩
  rw [runReconcile_alerts]
  have hrow : ∀ r : TodayRow,
      (reconcileRow absT pctT d ([] : List OIRecord) r).2 = none ↔
        r.openInterest < absT := by
    intro r
    rw [reconcileRow_snd]
    by_cases hA : absT ≤ r.openInterest
    · simp [meetsAbsThreshold, meetsPctThreshold, lookupPrevOI_nil, hA]
    · simp [meetsAbsThreshold, meetsPctThreshold, lookupPrevOI_nil, hA]
      omega
  rw [List.filterMap_eq_nil_iff]
  constructor
  · intro h r hr
    exact (hrow r).mp (h r hr)
  · intro h r hr
    exact (hrow r).mpr (h r hr)

/-- C4: with a fetch failing on every attempt the retry wrapper makes
exactly N attempts, N-1 inter-attempt delays of the configured duration,
and returns none; with a first success at attempt k it returns that batch
immediately after k attempts and k-1 delays. -/
theorem retry_attempt_bound {α : Type} (fetch : ℕ → Option α) (N delay : ℕ)
    (_hN : 1 ≤ N) :
    ((∀ j, 1 ≤ j → j ≤ N → fetch j = none) →
      fetch_option_chain_with_retry fetch N delay =
        ⟨N, List.replicate (N - 1) delay, none⟩) ∧
    (∀ k b, 1 ≤ k → k ≤ N → (∀ j, 1 ≤ j → j < k → fetch j = none) →
      fetch k = some b →
      fetch_option_chain_with_retry fetch N delay =
        ⟨k, List.replicate (k - 1) delay, some b⟩) := by
  constructor
  · intro hfail
    unfold fetch_option_chain_with_retry
    exact retryFrom_all_fail fetch N delay N 1 (by omega) (fun j h1 h2 => hfail j h1 h2)
  · intro k b h1 h2 hfail hk
    unfold fetch_option_chain_with_retry
    have hres := retryFrom_first_success fetch N delay N 1 k b (by omega) h1 h2
      (fun j ha hb => hfail j ha hb) hk
    rw [hres]
    have hk1 : k - 1 + 1 = k := by omega
    rw [hk1]

theorem retry_attempt_bound_witness :
    (1 ≤ 3 ∧
      fetch_option_chain_with_retry (fun _ => (none : Option ℕ)) 3 2 =
        ⟨3, List.replicate 2 2, none⟩) ∧
    fetch_option_chain_with_retry
        (fun j => if j = 2 then some 42 else (none : Option ℕ)) 3 2 =
      ⟨2, List.replicate 1 2, some 42⟩ :=
  ⟨⟨by decide,
    (retry_attempt_bound (fun _ => (none : Option ℕ)) 3 2 (by decide)).1
      (fun j _ _ => rfl)⟩,
   (retry_attempt_bound (fun j => if j = 2 then some 42 else (none : Option ℕ)) 3 2
       (by decide)).2 2 42 (by decide) (by decide)
     (fun j hj1 hj2 => by
       have hj : j = 1 := by omega
       subst hj
       rfl)
     rfl⟩

/-- C6: the notifier is invoked exactly once per run when the anomaly list
is non-empty and zero times when it is empty; the new snapshot is persisted
in every case, including when notification delivery fails; a failed
notification is never retried (exactly one post per invocation). -/
theorem notify_once_and_persist (alert_lines : List AnomalyEntry)
    (outcome : PostOutcome) (df : DataFrame) :
    (alert_lines = [] →
      (mainFinalize alert_lines outcome df).notifier_calls = 0 ∧
      (mainFinalize alert_lines outcome df).post_attempts = 0) ∧
    (alert_lines ≠ [] →
      (mainFinalize alert_lines outcome df).notifier_calls = 1 ∧
      (mainFinalize alert_lines outcome df).post_attempts = 1) ∧
    (mainFinalize alert_lines outcome df).saved = save_current_oi df ∧
    (send_discord_alert outcome).posts = 1 := by
  refine ⟨?_, ?_, ?_, ?_⟩
  · intro h
    subst h
    simp [mainFinalize]
  · intro h
    have hne : alert_lines.isEmpty = false := by
      simpa [List.isEmpty_iff] using h
    cases outcome <;> simp [mainFinalize, hne, send_discord_alert]
  · by_cases h : alert_lines.isEmpty <;> simp [mainFinalize, h]
  · cases outcome <;> rfl

theorem notify_once_and_persist_witness :
    (([] : List AnomalyEntry) = [] →
      (mainFinalize [] PostOutcome.timeout ⟨CANONICAL_COLUMNS, []⟩).notifier_calls = 0 ∧
      (mainFinalize [] PostOutcome.timeout ⟨CANONICAL_COLUMNS, []⟩).post_attempts = 0) ∧
    (mainFinalize [] PostOutcome.timeout ⟨CANONICAL_COLUMNS, []⟩).saved =
      save_current_oi ⟨CANONICAL_COLUMNS, []⟩ ∧
    (send_discord_alert PostOutcome.timeout).posts = 1 :=
  ⟨(notify_once_and_persist [] PostOutcome.timeout ⟨CANONICAL_COLUMNS, []⟩).1,
   (notify_once_and_persist [] PostOutcome.timeout ⟨CANONICAL_COLUMNS, []⟩).2.2⟩

/-- C7: saving a snapshot with the canonical column set and loading it back
returns the original snapshot, including the empty snapshot. -/
theorem snapshot_roundtrip (df : DataFrame) (_h : df.columns = CANONICAL_COLUMNS) :
    load_previous_oi (some (save_current_oi df)) = some df := by
  simp [load_previous_oi, save_current_oi, decodeRows_map_encodeRecord]

theorem snapshot_roundtrip_witness :
    (DataFrame.mk CANONICAL_COLUMNS []).columns = CANONICAL_COLUMNS ∧
    load_previous_oi (some (save_current_oi ⟨CANONICAL_COLUMNS, []⟩)) =
      some ⟨CANONICAL_COLUMNS, []⟩ ∧
    load_previous_oi (some (save_current_oi
        ⟨CANONICAL_COLUMNS, [⟨"2025-01-01", "AAPL", "2025-01-17", 150, "CALL", 1000⟩]⟩)) =
      some ⟨CANONICAL_COLUMNS, [⟨"2025-01-01", "AAPL", "2025-01-17", 150, "CALL", 1000⟩]⟩ :=
  ⟨rfl,
   snapshot_roundtrip ⟨CANONICAL_COLUMNS, []⟩ rfl,
   snapshot_roundtrip
     ⟨CANONICAL_COLUMNS, [⟨"2025-01-01", "AAPL", "2025-01-17", 150, "CALL", 1000⟩]⟩ rfl⟩

/-- C8: reconciliation is deterministic: two runs on equal today-data, equal
prior snapshots, equal run dates and equal thresholds produce equal anomaly
lists and equal new snapshot rows. -/
theorem reconcile_deterministic (absT1 absT2 : ℤ) (pctT1 pctT2 : ℚ)
    (d1 d2 : String) (prior1 prior2 : DataFrame) (today1 today2 : List TodayRow)
    (ha : absT1 = absT2) (hp : pctT1 = pctT2) (hd : d1 = d2)
    (hprior : prior1 = prior2) (htoday : today1 = today2) :
    (runReconcile absT1 pctT1 d1 prior1 today1).alert_lines =
      (runReconcile absT2 pctT2 d2 prior2 today2).alert_lines ∧
    (runReconcile absT1 pctT1 d1 prior1 today1).current_oi_records =
      (runReconcile absT2 pctT2 d2 prior2 today2).current_oi_records := by
  subst ha hp hd hprior htoday
  exact ⟨rfl, rfl⟩

theorem reconcile_deterministic_witness :
    (2000 : ℤ) = 2000 ∧
    (runReconcile 2000 100 "2025-01-02" ⟨CANONICAL_COLUMNS, []⟩
        [⟨"SPY", "2025-03-21", 400, "CALL", 2500⟩]).alert_lines =
      (runReconcile 2000 100 "2025-01-02" ⟨CANONICAL_COLUMNS, []⟩
        [⟨"SPY", "2025-03-21", 400, "CALL", 2500⟩]).alert_lines :=
  ⟨rfl,
   (reconcile_deterministic 2000 2000 100 100 "2025-01-02" "2025-01-02"
     ⟨CANONICAL_COLUMNS, []⟩ ⟨CANONICAL_COLUMNS, []⟩
     [⟨"SPY", "2025-03-21", 400, "CALL", 2500⟩]
     [⟨"SPY", "2025-03-21", 400, "CALL", 2500⟩]
     rfl rfl rfl rfl rfl).1⟩

/-- C10: with both thresholds strictly positive and a prior snapshot whose
openInterest values are nonnegative, every emitted anomaly entry records
strict OI growth: oi_today exceeds oi_yesterday and abs_change is positive,
so no decline appears in the anomaly report. -/
theorem anomaly_growth_only (absT : ℤ) (pctT : ℚ) (d : String)
    (prior : DataFrame) (today : List TodayRow)
    (ha : 0 < absT) (hp : 0 < pctT)
    (hprior : ∀ x ∈ prior.rows, 0 ≤ x.openInterest) :
    ∀ e ∈ (runReconcile absT pctT d prior today).alert_lines,
      e.oi_yesterday < e.oi_today ∧ 0 < e.abs_change := by
  intro e he
  rw [runReconcile_alerts] at he
  rcases List.mem_filterMap.mp he with ⟨r, hr, hsome⟩
  rw [reconcileRow_snd] at hsome
  by_cases hcond : (meetsAbsThreshold absT
      (lookupPrevOI prior.rows r.ticker r.expiration r.strike r.type) r.openInterest ||
    meetsPctThreshold pctT
      (lookupPrevOI prior.rows r.ticker r.expiration r.strike r.type) r.openInterest) = true
  · rw [if_pos hcond] at hsome
    have hYnn : 0 ≤ lookupPrevOI prior.rows r.ticker r.expiration r.strike r.type :=
      lookupPrevOI_nonneg prior.rows r.ticker r.expiration r.type r.strike hprior
    have hgrow := anomalyCond_implies_growth absT pctT
      (lookupPrevOI prior.rows r.ticker r.expiration r.strike r.type) r.openInterest
      ha hp hYnn hcond
    have he2 := Option.some.inj hsome
    rw [← he2]
    refine ⟨hgrow, ?_⟩
    show 0 < r.openInterest - lookupPrevOI prior.rows r.ticker r.expiration r.strike r.type
    omega
  · rw [if_neg hcond] at hsome
    exact absurd hsome (by simp)

theorem anomaly_growth_only_witness :
    (0 : ℤ) < 2000 ∧ (0 : ℚ) < 100 ∧
    ∀ e ∈ (runReconcile 2000 100 "2025-01-02"
        ⟨CANONICAL_COLUMNS, [⟨"2025-01-01", "AAPL", "2025-01-17", 150, "CALL", 1000⟩]⟩
        [⟨"AAPL", "2025-01-17", 150, "CALL", 3200⟩]).alert_lines,
      e.oi_yesterday < e.oi_today ∧ 0 < e.abs_change :=
  ⟨by decide, by decide,
   anomaly_growth_only 2000 100 "2025-01-02"
     ⟨CANONICAL_COLUMNS, [⟨"2025-01-01", "AAPL", "2025-01-17", 150, "CALL", 1000⟩]⟩
     [⟨"AAPL", "2025-01-17", 150, "CALL", 3200⟩]
     (by decide) (by decide) (by decide)⟩

end OIMonitor
